import Mathlib

/-!
# Verification of the Code to Play unlock / line-tracking core

Shallow embedding of the repository's core logic:

* `CodeTracker` (src/unnamed/part_001, `CodeTracker.ts`): line classifier,
  meaningful-line counting, change calculation, document-change processing
  and the debounce-timer slot.
* `GameManager` (src/src/core/GameManager.ts): `attemptPlay`, `endPlay`,
  `updateGlobalProgress`, `unlockGame`, `lockGame`, plus the reachable-state
  machine over the global play state.
* `StorageManager` (src/unnamed/part_002, `StorageManager.ts`): `importData`.
* `types.ts` (src/unnamed/part_003): data types, `DEFAULT_CONFIG`,
  `DEFAULT_GLOBAL_PLAY_STATE`.

Text content is embedded as `List Char` (JavaScript strings viewed as
character sequences); machine numbers are embedded as `Int` (JavaScript
number arithmetic on integral values at the magnitudes involved is exact).
Timestamps (`Date.now()`) are host-clock reads irrelevant to every claim and
are omitted from the records.
-/

/-- A JavaScript string viewed as a list of characters. -/
abbrev JsStr := List Char

/-- Whitespace characters removed by JavaScript `String.prototype.trim`
(restricted to the ASCII whitespace set; the claims do not depend on the
exotic Unicode space characters). -/
def isWsChar (c : Char) : Bool :=
  c = ' ' || c = '\t' || c = '\n' || c = '\r' || c = '\x0b' || c = '\x0c'

/-- JavaScript `line.trim()`. -/
def jsTrim (s : JsStr) : JsStr :=
  ((s.dropWhile isWsChar).reverse.dropWhile isWsChar).reverse

/-- JavaScript `content.split('\n')`: `n` separators yield `n + 1` parts. -/
def splitLines : JsStr → List JsStr
  | [] => [[]]
  | c :: rest =>
    match splitLines rest with
    | [] => [[]]
    | l :: ls => if c = '\n' then [] :: l :: ls else (c :: l) :: ls

/-- `UnlockConfig` from `types.ts`. -/
structure UnlockConfig where
  initialPlays : Int
  linesToUnlock : Int
  playsPerUnlock : Int
  countMeaningfulLinesOnly : Bool
deriving DecidableEq, Repr

/-- `ExtensionConfig` from `types.ts`. -/
structure ExtensionConfig where
  unlock : UnlockConfig
  showUnlockNotifications : Bool
  trackAllFiles : Bool
  trackedExtensions : List String
  debounceTime : Int
deriving DecidableEq, Repr

/-- Modelled from the spec: the allow-list constant `TRACKEDEXTENSION`
(`src/constants/TrackedExtensions.ts`) is not under src/; the spec describes
it only as "an explicit extension allow-list".  Its exact contents decide no
claim; the entries here match the extensions the unit tests exercise. -/
def TRACKEDEXTENSION : List String := [".ts", ".js", ".py"]

/-- `DEFAULT_CONFIG` from `types.ts`. -/
def DEFAULT_CONFIG : ExtensionConfig :=
  { unlock :=
      { initialPlays := 5
        linesToUnlock := 50
        playsPerUnlock := 5
        countMeaningfulLinesOnly := true }
    showUnlockNotifications := true
    trackAllFiles := false
    trackedExtensions := TRACKEDEXTENSION
    debounceTime := 1000 }

/-- `GlobalPlayState` from `types.ts`. -/
structure GlobalPlayState where
  playsRemaining : Int
  linesWritten : Int
  isUnlocked : Bool
deriving DecidableEq, Repr

/-- `DEFAULT_GLOBAL_PLAY_STATE` from `types.ts`: a compile-time constant
built from `DEFAULT_CONFIG.unlock.initialPlays`, with `isUnlocked : true`
unconditionally. -/
def DEFAULT_GLOBAL_PLAY_STATE : GlobalPlayState :=
  { playsRemaining := DEFAULT_CONFIG.unlock.initialPlays
    linesWritten := 0
    isUnlocked := true }

/-- Per-game `GameState` from `types.ts` (timestamp field omitted). -/
structure GameState where
  highScore : Int
  totalPlays : Int
deriving DecidableEq, Repr

/-- `GameEvent` from `types.ts` (event tags; payloads are not needed by the
claims). -/
inductive GameEvent where
  | unlocked
  | locked
  | playStarted
  | playEnded
  | codeWritten
  | progressUpdated
deriving DecidableEq, Repr

-- ========================================
-- CodeTracker: line classifier (CodeTracker.ts 249-305)
-- ========================================

/-- The character class of the regex `/[{}\[\]();,]/` in
`CodeTracker.isLineMeaningful`. -/
def isTrivialPunct (c : Char) : Bool :=
  c = '\x7b' || c = '\x7d' || c = '[' || c = ']' || c = '(' || c = ')' ||
  c = ';' || c = ','

/-- `CodeTracker.getCommentPatterns`: each regex `/^prefix/` is a
starts-with test, embedded as the literal prefix. -/
def getCommentPatterns (languageId : String) : List JsStr :=
  (if ["javascript", "typescript", "java", "cpp", "c", "csharp", "go",
        "rust", "php"].contains languageId
   then [['/', '/'], ['/', '*'], ['*']] else []) ++
  (if ["python", "ruby", "shellscript", "powershell"].contains languageId
   then [['#']] else []) ++
  (if ["html", "xml", "markdown"].contains languageId
   then [['<', '!', '-', '-']] else []) ++
  (if ["css", "scss", "less"].contains languageId
   then [['/', '*']] else [])

/-- `CodeTracker.isLineMeaningful` (expects the already-trimmed line, as at
its call site in `countMeaningfulLines`). -/
def isLineMeaningful (line : JsStr) (languageId : String) : Bool :=
  if line.length = 0 then false
  else if line.length = 1 && line.any isTrivialPunct then false
  else if (getCommentPatterns languageId).any
      (fun p => List.isPrefixOf p line) then false
  else true

/-- `CodeTracker.countMeaningfulLines`: counts lines whose trimmed form is
meaningful. -/
def countMeaningfulLines (lines : List JsStr) (languageId : String) : Nat :=
  lines.countP (fun l => isLineMeaningful (jsTrim l) languageId)

-- ========================================
-- CodeTracker: change calculation and document processing
-- (CodeTracker.ts 151-218)
-- ========================================

/-- `CodeChange` from `types.ts` (timestamp omitted: `Date.now()` is a
host-clock read no claim depends on). -/
structure CodeChange where
  linesAdded : Int
  linesDeleted : Int
  netChange : Int
  isMeaningful : Bool
  languageId : String
deriving DecidableEq, Repr

/-- `CodeTracker.calculateLineChanges`. -/
def calculateLineChanges (cfg : ExtensionConfig) (oldContent newContent : JsStr)
    (languageId : String) : CodeChange :=
  let oldLines := splitLines oldContent
  let newLines := splitLines newContent
  let oldMeaningfulCount := countMeaningfulLines oldLines languageId
  let newMeaningfulCount := countMeaningfulLines newLines languageId
  let netChange : Int := (newLines.length : Int) - (oldLines.length : Int)
  let meaningfulNetChange : Int :=
    (newMeaningfulCount : Int) - (oldMeaningfulCount : Int)
  { linesAdded := max 0 netChange
    linesDeleted := max 0 (-netChange)
    netChange := if cfg.unlock.countMeaningfulLinesOnly
      then meaningfulNetChange else netChange
    isMeaningful := meaningfulNetChange > 0
    languageId := languageId }

/-- The `documentCache : Map<string, string>` of `CodeTracker`, as an
association list keyed by the document URI. -/
abbrev DocCache := List (String × JsStr)

/-- `Map.get`. -/
def cacheGet (cache : DocCache) (uri : String) : Option JsStr :=
  (cache.find? (fun e => e.1 = uri)).map (·.2)

/-- `Map.set` (replaces an existing entry for the key). -/
def cacheSet (cache : DocCache) (uri : String) (text : JsStr) : DocCache :=
  if cache.any (fun e => e.1 = uri) then
    cache.map (fun e => if e.1 = uri then (uri, text) else e)
  else
    cache ++ [(uri, text)]

/-- `CodeTracker.processDocumentChange`: returns the updated cache and the
emitted `CodeChange`, if any.  The guard `if (!cachedContent)` in the source
is a JavaScript falsiness test, true both when the key is absent
(`undefined`) and when the cached text is the empty string. -/
def processDocumentChange (cfg : ExtensionConfig) (cache : DocCache)
    (uri : String) (currentContent : JsStr) (languageId : String) :
    DocCache × Option CodeChange :=
  match cacheGet cache uri with
  | none => (cacheSet cache uri currentContent, none)
  | some cachedContent =>
    if cachedContent.isEmpty then
      (cacheSet cache uri currentContent, none)
    else
      let change := calculateLineChanges cfg cachedContent currentContent
        languageId
      let cache' := cacheSet cache uri currentContent
      if change.isMeaningful && change.netChange > 0 then
        (cache', some change)
      else
        (cache', none)

-- ========================================
-- CodeTracker: debounce timer slot (CodeTracker.ts 21-24, 90-139)
-- ========================================

/-- The single `debounceTimer` field of `CodeTracker` together with the
document captured by the scheduled callback: `some uri` means a debounced
`processDocumentChange` for `uri` is pending, `none` means no timer is
pending. -/
structure TimerState where
  pendingDoc : Option String
deriving DecidableEq, Repr

/-- A document-change event as seen by `handleDocumentChange`: the fields of
`vscode.TextDocumentChangeEvent` the handler inspects. -/
structure DocChangeEvent where
  uri : String
  fileName : String
  isUntitled : Bool
  hasContentChanges : Bool
deriving DecidableEq, Repr

/-- `CodeTracker.shouldTrackDocument`. -/
def shouldTrackDocument (cfg : ExtensionConfig) (fileName : String) : Bool :=
  if cfg.trackAllFiles then true
  else cfg.trackedExtensions.any (fun ext => fileName.endsWith ext)

/-- `CodeTracker.handleDocumentChange`, restricted to its effect on the
debounce-timer slot: after the guards pass, `clearTimeout` on the (single)
pending timer followed by `setTimeout` for the current event's document. -/
def handleDocumentChangeTimer (cfg : ExtensionConfig) (st : TimerState)
    (e : DocChangeEvent) : TimerState :=
  if !e.hasContentChanges then st
  else if e.isUntitled then st
  else if !shouldTrackDocument cfg e.fileName then st
  else { pendingDoc := some e.uri }

-- ========================================
-- GameManager: play control (GameManager.ts 118-206)
-- ========================================

/-- `PlayAttemptResult` from `types.ts`. -/
structure PlayAttemptResult where
  success : Bool
  reason : Option String
deriving DecidableEq, Repr

/-- `GameManager.getRemainingLinesToUnlock` (GameManager.ts 364-375). -/
def getRemainingLinesToUnlock (cfg : ExtensionConfig)
    (s : GlobalPlayState) : Int :=
  if s.isUnlocked then 0
  else max 0 (cfg.unlock.linesToUnlock - s.linesWritten)

/-- `GameManager.attemptPlay`: `games` is the set of registered game ids
(the key set of the `games` map).  Returns the result together with the
global play state, which the method only reads and never writes. -/
def attemptPlay (games : List String) (cfg : ExtensionConfig)
    (s : GlobalPlayState) (gameId : String) :
    PlayAttemptResult × GlobalPlayState :=
  if !games.contains gameId then
    ({ success := false
       reason := some ("Game \x27" ++ gameId ++ "\x27 not found") }, s)
  else if !s.isUnlocked then
    ({ success := false
       reason := some ("Games locked. Write "
         ++ toString (getRemainingLinesToUnlock cfg s)
         ++ " more lines to unlock.") }, s)
  else if s.playsRemaining ≤ 0 then
    ({ success := false
       reason := some ("No plays remaining. Write "
         ++ toString cfg.unlock.linesToUnlock
         ++ " lines to unlock.") }, s)
  else
    ({ success := true, reason := none }, s)

/-- The per-game state update performed by `GameManager.endPlay`
(GameManager.ts 165-176). -/
def endPlayGame (gs : GameState) (score : Option Int) : GameState :=
  { highScore :=
      match score with
      | some sc => if sc > gs.highScore then sc else gs.highScore
      | none => gs.highScore
    totalPlays := gs.totalPlays + 1 }

/-- The global play state update performed by `GameManager.endPlay`
(GameManager.ts 178-198): the decrement is unconditional, and the lock
branch fires only when the decremented value is exactly 0. -/
def endPlayGlobal (s : GlobalPlayState) : GlobalPlayState :=
  let newPlaysRemaining := s.playsRemaining - 1
  if newPlaysRemaining = 0 then
    { playsRemaining := newPlaysRemaining
      linesWritten := 0
      isUnlocked := false }
  else
    { s with playsRemaining := newPlaysRemaining }

/-- The events fired by `GameManager.endPlay`, in firing order. -/
def endPlayEvents (s : GlobalPlayState) : List GameEvent :=
  (if s.playsRemaining - 1 = 0 then [GameEvent.locked] else [])
    ++ [GameEvent.playEnded]

/-- `GameManager.endPlay`: per-game stats update, global decrement / lock,
and the fired events. -/
def endPlay (gs : GameState) (s : GlobalPlayState) (score : Option Int) :
    GameState × GlobalPlayState × List GameEvent :=
  (endPlayGame gs score, endPlayGlobal s, endPlayEvents s)

-- ========================================
-- GameManager: unlock progress (GameManager.ts 240-291, 405-440)
-- ========================================

/-- `GameManager.updateGlobalProgress`: returns the new global play state
and the fired events.  The else-branch persists only the `linesWritten`
field (`updateGlobalPlayState` merges a partial record into the stored
state, following the merge pattern of `StorageManager.updateGameState`). -/
def updateGlobalProgress (cfg : ExtensionConfig) (s : GlobalPlayState)
    (linesWritten : Int) : GlobalPlayState × List GameEvent :=
  if s.isUnlocked then (s, [])
  else
    let newLinesWritten := s.linesWritten + linesWritten
    if newLinesWritten ≥ cfg.unlock.linesToUnlock then
      ({ playsRemaining := cfg.unlock.playsPerUnlock
         linesWritten := 0
         isUnlocked := true }, [GameEvent.unlocked])
    else
      ({ s with linesWritten := newLinesWritten },
        [GameEvent.progressUpdated])

/-- The global play state written by `GameManager.unlockGame`
(GameManager.ts 405-419). -/
def unlockGameState (cfg : ExtensionConfig) : GlobalPlayState :=
  { playsRemaining := cfg.unlock.playsPerUnlock
    linesWritten := 0
    isUnlocked := true }

/-- The global play state written by `GameManager.lockGame`
(GameManager.ts 426-440). -/
def lockGameState : GlobalPlayState :=
  { playsRemaining := 0
    linesWritten := 0
    isUnlocked := false }

-- ========================================
-- GameManager: the reachable global-play-state machine
-- ========================================

/-- Modelled from the spec: `StorageManager.resetGlobalPlayState` (called by
`GameManager.resetAllGames`) is not under src/; following the spec's reset
contract ("identical to fresh registration defaults") and the in-src reset
pattern (`resetGameState`, `resetConfig` save the default constant), it
saves `DEFAULT_GLOBAL_PLAY_STATE`. -/
def resetGlobalPlayState : GlobalPlayState := DEFAULT_GLOBAL_PLAY_STATE

/-- One engine operation acting on the global play state, at a fixed
configuration.  `registerGame` and `attemptPlay` never write the global
state; `endPlay`, delta accrual, `unlockGame`, `lockGame` and
`resetAllGames` write it as defined above.  Deltas are restricted to
strictly positive net changes, matching the emission guard
`change.isMeaningful && change.netChange > 0` in
`CodeTracker.processDocumentChange`, the only producer of deltas. -/
inductive EngineStep (cfg : ExtensionConfig) :
    GlobalPlayState → GlobalPlayState → Prop where
  | registerGame (s : GlobalPlayState) : EngineStep cfg s s
  | attemptPlayStep (s : GlobalPlayState) : EngineStep cfg s s
  | endPlayStep (s : GlobalPlayState) : EngineStep cfg s (endPlayGlobal s)
  | delta (s : GlobalPlayState) (d : Int) (hd : 0 < d) :
      EngineStep cfg s (updateGlobalProgress cfg s d).1
  | unlockStep (s : GlobalPlayState) : EngineStep cfg s (unlockGameState cfg)
  | lockStep (s : GlobalPlayState) : EngineStep cfg s lockGameState
  | resetStep (s : GlobalPlayState) : EngineStep cfg s resetGlobalPlayState

/-- Global play states reachable from the initial state by arbitrary
sequences of engine operations (no protocol restriction on `endPlay`). -/
inductive ReachableU (cfg : ExtensionConfig) : GlobalPlayState → Prop where
  | init : ReachableU cfg DEFAULT_GLOBAL_PLAY_STATE
  | step {s t : GlobalPlayState} :
      ReachableU cfg s → EngineStep cfg s t → ReachableU cfg t

/-- Global play states reachable when every `endPlay` is issued only from a
state with `playsRemaining > 0` — the protocol obtained when each play
session is admitted by a successful `attemptPlay`. -/
inductive ReachableG (cfg : ExtensionConfig) : GlobalPlayState → Prop where
  | init : ReachableG cfg DEFAULT_GLOBAL_PLAY_STATE
  | registerGame {s : GlobalPlayState} : ReachableG cfg s → ReachableG cfg s
  | attemptPlayStep {s : GlobalPlayState} :
      ReachableG cfg s → ReachableG cfg s
  | endPlayStep {s : GlobalPlayState} (hpos : 0 < s.playsRemaining) :
      ReachableG cfg s → ReachableG cfg (endPlayGlobal s)
  | delta {s : GlobalPlayState} (d : Int) (hd : 0 < d) :
      ReachableG cfg s → ReachableG cfg (updateGlobalProgress cfg s d).1
  | unlockStep {s : GlobalPlayState} :
      ReachableG cfg s → ReachableG cfg (unlockGameState cfg)
  | lockStep {s : GlobalPlayState} :
      ReachableG cfg s → ReachableG cfg lockGameState
  | resetStep {s : GlobalPlayState} :
      ReachableG cfg s → ReachableG cfg resetGlobalPlayState

-- ========================================
-- StorageManager: data import (StorageManager.ts 268-280)
-- ========================================

/-- The persistent key-value store (`vscode.Memento`), as an association
list of keys to values of an arbitrary type `V` (the import writes parsed
JSON values of any shape; no schema is enforced). -/
abbrev Store (V : Type) := List (String × V)

/-- `Memento.update` for a single key (replaces an existing entry). -/
def storeSet {V : Type} (st : Store V) (key : String) (v : V) : Store V :=
  if st.any (fun e => e.1 = key) then
    st.map (fun e => if e.1 = key then (key, v) else e)
  else
    st ++ [(key, v)]

/-- `StorageManager.importData`.  `JSON.parse` is a host-runtime primitive;
it is embedded by its outcome: `Except.error msg` when the input string is
not valid JSON (the parse exception), `Except.ok entries` with the parsed
top-level object's entries otherwise.  The parse runs before any store
write; a parse failure is re-thrown as
`Failed to import data: ...` with nothing written.  On success every entry
whose key starts with `codeToPlay.` is written as-is — no validation beyond
the parse. -/
def importData {V : Type} (parsed : Except String (List (String × V)))
    (st : Store V) : Except String Unit × Store V :=
  match parsed with
  | Except.error msg =>
    (Except.error ("Failed to import data: " ++ msg), st)
  | Except.ok entries =>
    (Except.ok (),
      entries.foldl
        (fun acc e =>
          if e.1.startsWith "codeToPlay." then storeSet acc e.1 e.2 else acc)
        st)

-- ========================================
-- Helper lemmas
-- ========================================

/-- Unfolding of the classifier as a truth characterization. -/
theorem isLineMeaningful_true_iff (t : JsStr) (g : String) :
    isLineMeaningful t g = true ↔
      t ≠ [] ∧ ¬(t.length = 1 ∧ t.any isTrivialPunct = true) ∧
        ∀ p ∈ getCommentPatterns g, ¬ List.IsPrefix p t := by
  unfold isLineMeaningful
  constructor
  · intro h
    by_cases h0 : t.length = 0
    · simp [h0] at h
    · simp only [h0, if_false] at h
      by_cases h1 : t.length = 1 ∧ t.any isTrivialPunct = true
      · simp [h1.1, h1.2] at h
      · refine ⟨by simpa using h0, h1, ?_⟩
        intro p hp hpre
        have hat : (getCommentPatterns g).any (fun q => List.isPrefixOf q t)
            = true := by
          exact List.any_eq_true.mpr ⟨p, hp, by
            simpa [ List.isPrefixOf_iff_prefix] using hpre⟩
        simp [hat] at h
  · rintro ⟨h0, h1, h2⟩
    have hl0 : ¬ t.length = 0 := by simpa using h0
    simp only [hl0, if_false]
    have hcond : ¬ (t.length = 1 && t.any isTrivialPunct) = true := by
      intro hc
      rw [Bool.and_eq_true] at hc
      exact h1 ⟨by simpa using hc.1, hc.2⟩
    simp only [hcond, if_false]
    have hany : (getCommentPatterns g).any
        (fun q => List.isPrefixOf q t) = false := by
      rw [List.any_eq_false]
      intro p hp
      simp only [ List.isPrefixOf_iff_prefix]
      exact fun hpre => h2 p hp hpre
    simp [hany]

-- ========================================
-- C6: the line classifier
-- ========================================

/-- C6: For every input line and language tag, the classifier applied to the
whitespace-trimmed line returns false for empty or whitespace-only lines;
false for a trimmed line of length 1 that is one of the trivial punctuation
characters; false for lines starting with the comment prefix of the tag's
language family (`//`, `/*`, `*` for the C-family, `#` for the Python/shell
family, `<!--` for the markup family, `/*` for the style family); true for
every other line; and language tags outside those families get no comment
patterns, so every non-trivial line counts.  (The classifier is a pure Lean
function, hence deterministic.) -/
theorem c6_line_classifier (l : JsStr) (g : String) :
    (jsTrim l = [] → isLineMeaningful (jsTrim l) g = false)
    ∧ ((jsTrim l).length = 1 → (jsTrim l).any isTrivialPunct = true →
        isLineMeaningful (jsTrim l) g = false)
    ∧ (["javascript", "typescript", "java", "cpp", "c", "csharp", "go",
        "rust", "php"].contains g = true →
        ( List.IsPrefix ['/', '/'] (jsTrim l) ∨
         List.IsPrefix ['/', '*'] (jsTrim l) ∨
         List.IsPrefix ['*'] (jsTrim l)) →
        isLineMeaningful (jsTrim l) g = false)
    ∧ (["python", "ruby", "shellscript", "powershell"].contains g = true →
        List.IsPrefix ['#'] (jsTrim l) →
        isLineMeaningful (jsTrim l) g = false)
    ∧ (["html", "xml", "markdown"].contains g = true →
        List.IsPrefix ['<', '!', '-', '-'] (jsTrim l) →
        isLineMeaningful (jsTrim l) g = false)
    ∧ (["css", "scss", "less"].contains g = true →
        List.IsPrefix ['/', '*'] (jsTrim l) →
        isLineMeaningful (jsTrim l) g = false)
    ∧ (jsTrim l ≠ [] →
        ¬((jsTrim l).length = 1 ∧ (jsTrim l).any isTrivialPunct = true) →
        (∀ p ∈ getCommentPatterns g, ¬ List.IsPrefix p (jsTrim l)) →
        isLineMeaningful (jsTrim l) g = true)
    ∧ (["javascript", "typescript", "java", "cpp", "c", "csharp", "go",
        "rust", "php"].contains g = false →
       ["python", "ruby", "shellscript", "powershell"].contains g = false →
       ["html", "xml", "markdown"].contains g = false →
       ["css", "scss", "less"].contains g = false →
       getCommentPatterns g = []) := by
  set t := jsTrim l with ht
  have hfalse : ∀ p ∈ getCommentPatterns g, List.IsPrefix p t →
      isLineMeaningful t g = false := by
    intro p hp hpre
    cases hmean : isLineMeaningful t g with
    | false => rfl
    | true =>
      exact absurd hpre
        (((isLineMeaningful_true_iff t g).mp hmean).2.2 p hp)
  refine ⟨?_, ?_, ?_, ?_, ?_, ?_, ?_, ?_⟩
  · intro h; simp [isLineMeaningful, h]
  · intro h1 h2; simp [isLineMeaningful, h1, h2]
  · intro hc hpre
    simp at hc
    rcases hpre with h | h | h <;>
      exact hfalse _ (by simp [getCommentPatterns]; tauto) h
  · intro hc hpre
    simp at hc
    exact hfalse _ (by simp [getCommentPatterns]; tauto) hpre
  · intro hc hpre
    simp at hc
    exact hfalse _ (by simp [getCommentPatterns]; tauto) hpre
  · intro hc hpre
    simp at hc
    exact hfalse _ (by simp [getCommentPatterns]; tauto) hpre
  · intro h0 h1 h2
    exact (isLineMeaningful_true_iff t g).mpr ⟨h0, h1, h2⟩
  · intro h1 h2 h3 h4
    simp at h1 h2 h3 h4
    simp [getCommentPatterns]
    tauto

/-- Witness for C6 at concrete inputs: `"  // x"` under `typescript` is
rejected as a comment line. -/
theorem c6_line_classifier_witness :
    isLineMeaningful (jsTrim [' ', ' ', '/', '/', ' ', 'x']) "typescript"
      = false :=
  (c6_line_classifier [' ', ' ', '/', '/', ' ', 'x'] "typescript").2.2.1
    (by decide) (Or.inl (by decide))

-- ========================================
-- C5: change calculation and emission
-- ========================================

/-- C5: For every pair of cached old text and new text of a tracked unit,
the comparison step computes `linesAdded = max 0 (new - old)` and
`linesDeleted = max 0 (old - new)` over total line counts, a net change
equal to the meaningful-count difference when `countMeaningfulLinesOnly` is
configured and to the raw line-count difference otherwise, and
`isMeaningful` iff the meaningful-count difference is strictly positive; it
replaces the cache with the new text unconditionally and emits a delta iff
`isMeaningful` holds and the configured net change is strictly positive,
so a net-negative or zero change is never emitted. -/
theorem c5_change_detection (cfg : ExtensionConfig) (cache : DocCache)
    (uri : String) (oldText newText : JsStr) (lang : String)
    (hcached : cacheGet cache uri = some oldText) (hne : oldText ≠ []) :
    (calculateLineChanges cfg oldText newText lang).linesAdded =
      max 0 (((splitLines newText).length : Int)
        - ((splitLines oldText).length : Int))
    ∧ (calculateLineChanges cfg oldText newText lang).linesDeleted =
      max 0 (((splitLines oldText).length : Int)
        - ((splitLines newText).length : Int))
    ∧ (calculateLineChanges cfg oldText newText lang).netChange =
      (if cfg.unlock.countMeaningfulLinesOnly then
        ((countMeaningfulLines (splitLines newText) lang : Int)
          - (countMeaningfulLines (splitLines oldText) lang : Int))
       else
        (((splitLines newText).length : Int)
          - ((splitLines oldText).length : Int)))
    ∧ ((calculateLineChanges cfg oldText newText lang).isMeaningful = true ↔
        (countMeaningfulLines (splitLines oldText) lang : Int)
          < (countMeaningfulLines (splitLines newText) lang : Int))
    ∧ (processDocumentChange cfg cache uri newText lang).1 =
        cacheSet cache uri newText
    ∧ ((processDocumentChange cfg cache uri newText lang).2 =
          some (calculateLineChanges cfg oldText newText lang) ↔
        ((calculateLineChanges cfg oldText newText lang).isMeaningful = true
          ∧ 0 < (calculateLineChanges cfg oldText newText lang).netChange))
    ∧ ((processDocumentChange cfg cache uri newText lang).2 = none ↔
        ¬((calculateLineChanges cfg oldText newText lang).isMeaningful = true
          ∧ 0 < (calculateLineChanges cfg oldText newText lang).netChange)) := by
  have hemp : oldText.isEmpty = false := by
    cases oldText with
    | nil => exact absurd rfl hne
    | cons c cs => rfl
  refine ⟨rfl, ?_, rfl, ?_, ?_, ?_, ?_⟩
  · have hdel : (calculateLineChanges cfg oldText newText lang).linesDeleted
        = max 0 (-(((splitLines newText).length : Int)
          - ((splitLines oldText).length : Int))) := rfl
    rw [hdel, neg_sub]
  · have hm : (calculateLineChanges cfg oldText newText lang).isMeaningful
        = decide (((countMeaningfulLines (splitLines newText) lang : Int)
          - (countMeaningfulLines (splitLines oldText) lang : Int)) > 0) :=
      rfl
    rw [hm, decide_eq_true_eq]
    omega
  · simp only [processDocumentChange, hcached, hemp]
    split
    · rfl
    · split <;> rfl
  · simp only [processDocumentChange, hcached, hemp]
    by_cases hm :
        (calculateLineChanges cfg oldText newText lang).isMeaningful = true
    · by_cases hp :
          0 < (calculateLineChanges cfg oldText newText lang).netChange
      · simp [hm, hp]
      · simp [hm, hp]
    · simp [hm]
  · simp only [processDocumentChange, hcached, hemp]
    by_cases hm :
        (calculateLineChanges cfg oldText newText lang).isMeaningful = true
    · by_cases hp :
          0 < (calculateLineChanges cfg oldText newText lang).netChange
      · simp [hm, hp]
      · simp [hm, hp]
    · simp [hm]

/-- Witness for C5: adding one meaningful line to a one-line cached document
emits exactly the computed delta. -/
theorem c5_change_detection_witness :
    (processDocumentChange DEFAULT_CONFIG [("u", ['a'])] "u"
        ['a', '\n', 'b'] "typescript").2 =
      some (calculateLineChanges DEFAULT_CONFIG ['a'] ['a', '\n', 'b']
        "typescript") :=
  ((c5_change_detection DEFAULT_CONFIG [("u", ['a'])] "u" ['a']
      ['a', '\n', 'b'] "typescript" (by decide) (by decide)).2.2.2.2.2.1).mpr
    (by decide)

-- ========================================
-- C10: an empty-string cache entry behaves as a first observation
-- ========================================

/-- C10: If the cached text for a tracked unit is the empty string, the next
processed snapshot is treated as a first observation: the cache is replaced
with the new text and no delta is emitted, regardless of the new text (the
`if (!cachedContent)` falsiness guard is also true on the empty string). -/
theorem c10_empty_cache_first_observation (cfg : ExtensionConfig)
    (cache : DocCache) (uri : String) (text : JsStr) (lang : String)
    (h : cacheGet cache uri = some []) :
    processDocumentChange cfg cache uri text lang =
      (cacheSet cache uri text, none) := by
  simp [processDocumentChange, h]

/-- Witness for C10: a document whose cache holds the empty string gets its
cache refilled with three meaningful lines and emits nothing. -/
theorem c10_empty_cache_first_observation_witness :
    processDocumentChange DEFAULT_CONFIG [("u", [])] "u"
        ['a', '\n', 'b', '\n', 'c'] "typescript" =
      ([("u", ['a', '\n', 'b', '\n', 'c'])], none) := by
  rw [c10_empty_cache_first_observation DEFAULT_CONFIG [("u", [])] "u"
    ['a', '\n', 'b', '\n', 'c'] "typescript" (by decide)]
  decide

-- ========================================
-- C7: attemptPlay outcomes
-- ========================================

/-- C7: `attemptPlay` always returns a tagged success/failure result (it is
a total function, so it never throws): a not-found failure when the game id
is unregistered, a locked failure whose message states how many more lines
are required when the global state is locked, a no-plays-remaining failure
when unlocked with `playsRemaining <= 0`, and success otherwise; in every
outcome the global play state is returned unchanged and no credit is
decremented. -/
theorem c7_attemptPlay (games : List String) (cfg : ExtensionConfig)
    (s : GlobalPlayState) (gameId : String) :
    ((attemptPlay games cfg s gameId).2 = s)
    ∧ (gameId ∉ games →
        (attemptPlay games cfg s gameId).1 =
          { success := false
            reason := some ("Game \x27" ++ gameId ++ "\x27 not found") })
    ∧ (gameId ∈ games → s.isUnlocked = false →
        (attemptPlay games cfg s gameId).1 =
          { success := false
            reason := some ("Games locked. Write "
              ++ toString (getRemainingLinesToUnlock cfg s)
              ++ " more lines to unlock.") })
    ∧ (gameId ∈ games → s.isUnlocked = true →
        s.playsRemaining ≤ 0 →
        (attemptPlay games cfg s gameId).1 =
          { success := false
            reason := some ("No plays remaining. Write "
              ++ toString cfg.unlock.linesToUnlock
              ++ " lines to unlock.") })
    ∧ (gameId ∈ games → s.isUnlocked = true →
        0 < s.playsRemaining →
        (attemptPlay games cfg s gameId).1 =
          { success := true, reason := none })
    ∧ ((attemptPlay games cfg s gameId).1.success = true ↔
        gameId ∈ games ∧ s.isUnlocked = true
          ∧ 0 < s.playsRemaining) := by
  by_cases hg : gameId ∈ games
  · by_cases hu : s.isUnlocked = true
    · by_cases hp : s.playsRemaining ≤ 0
      · simp [attemptPlay, hg, hu, hp]
      · simp [attemptPlay, hg, hu, hp]
        omega
    · have hu2 : s.isUnlocked = false := by
        cases h : s.isUnlocked with
        | false => rfl
        | true => exact absurd h hu
      simp [attemptPlay, hg, hu2]
  · simp [attemptPlay, hg]

/-- Witness for C7, the spec's own example: `attemptPlay` on the
unregistered id `ghost` fails and leaves the state untouched. -/
theorem c7_attemptPlay_witness :
    (attemptPlay [] DEFAULT_CONFIG DEFAULT_GLOBAL_PLAY_STATE "ghost").1 =
      { success := false
        reason := some ("Game \x27" ++ "ghost" ++ "\x27 not found") } :=
  (c7_attemptPlay [] DEFAULT_CONFIG DEFAULT_GLOBAL_PLAY_STATE "ghost").2.1
    (by decide)

-- ========================================
-- C9: data import is all-or-nothing on parse failure
-- ========================================

/-- C9: For every input whose JSON parse fails, `importData` rejects the
entire import with an error carrying the parse failure and writes no keys
to the store; when the parse succeeds the import never fails — no schema
validation beyond the JSON parse is performed (every parsed entry with the
extension's key prefix is written as-is, whatever its shape). -/
theorem c9_importData (V : Type) (msg : String)
    (entries : List (String × V)) (st : Store V) :
    (importData (Except.error msg) st =
      (Except.error ("Failed to import data: " ++ msg), st))
    ∧ ((importData (Except.ok entries) st).1 = Except.ok ())
    ∧ ((importData (Except.ok entries) st).2 =
        entries.foldl
          (fun acc e =>
            if e.1.startsWith "codeToPlay." then storeSet acc e.1 e.2
            else acc)
          st) := by
  exact ⟨rfl, rfl, rfl⟩

-- ========================================
-- C2: endPlay
-- ========================================

/-- C2 counterexample: `endPlay` has no floor at 0.  Called with
`playsRemaining = 0` (games already locked) it stores `-1`, whereas a
decrement floored at 0 would store `max 0 (0 - 1) = 0`. -/
theorem c2_counterexample :
    (endPlay { highScore := 0, totalPlays := 0 }
        { playsRemaining := 0, linesWritten := 0, isUnlocked := false }
        none).2.1.playsRemaining = -1
    ∧ max (0 : Int) (0 - 1) = 0
    ∧ ((-1 : Int) ≠ max (0 : Int) (0 - 1)) := by decide

/-- C2 (amended): `endPlay` decrements `playsRemaining` by exactly 1 with no
floor (the stored value goes negative when `endPlay` is called with
`playsRemaining ≤ 0`); when the decrement reaches exactly 0 it locks the
global state with the lines-written counter reset to 0 and emits a `Locked`
event, while a call with `playsRemaining > 1` only decrements with no
transition; a `PlayEnded` event is emitted in every case, `totalPlays` is
incremented unconditionally, and the stored high score is updated exactly
when the supplied score is strictly greater than it. -/
theorem c2_endPlay (gs : GameState) (s : GlobalPlayState)
    (score : Option Int) :
    ((endPlay gs s score).2.1.playsRemaining = s.playsRemaining - 1)
    ∧ (s.playsRemaining = 1 →
        (endPlay gs s score).2.1 =
          { playsRemaining := 0, linesWritten := 0, isUnlocked := false }
        ∧ (endPlay gs s score).2.2 =
            [GameEvent.locked, GameEvent.playEnded])
    ∧ (1 < s.playsRemaining →
        (endPlay gs s score).2.1 =
          { s with playsRemaining := s.playsRemaining - 1 }
        ∧ (endPlay gs s score).2.2 = [GameEvent.playEnded])
    ∧ GameEvent.playEnded ∈ (endPlay gs s score).2.2
    ∧ ((endPlay gs s score).1.totalPlays = gs.totalPlays + 1)
    ∧ (∀ sc : Int, score = some sc → gs.highScore < sc →
        (endPlay gs s score).1.highScore = sc)
    ∧ (∀ sc : Int, score = some sc → sc ≤ gs.highScore →
        (endPlay gs s score).1.highScore = gs.highScore)
    ∧ (score = none → (endPlay gs s score).1.highScore = gs.highScore) := by
  refine ⟨?_, ?_, ?_, ?_, ?_, ?_, ?_, ?_⟩
  · unfold endPlay endPlayGlobal
    by_cases h : s.playsRemaining - 1 = 0 <;> simp [h]
  · intro h1
    unfold endPlay endPlayGlobal endPlayEvents
    simp [h1]
  · intro h1
    have h0 : ¬ (s.playsRemaining - 1 = 0) := by omega
    unfold endPlay endPlayGlobal endPlayEvents
    simp [h0]
  · unfold endPlay endPlayEvents
    by_cases h : s.playsRemaining - 1 = 0 <;> simp [h]
  · rfl
  · intro sc hsc hlt
    unfold endPlay endPlayGame
    simp [hsc, hlt]
  · intro sc hsc hle
    have hnlt : ¬ (gs.highScore < sc) := by omega
    unfold endPlay endPlayGame
    simp [hsc, hnlt]
  · intro hn
    unfold endPlay endPlayGame
    simp [hn]

/-- Witness for C2: ending a play at `playsRemaining = 1` with a new high
score locks the games, resets progress, and fires `Locked` then
`PlayEnded`. -/
theorem c2_endPlay_witness :
    (endPlay { highScore := 3, totalPlays := 7 }
        { playsRemaining := 1, linesWritten := 4, isUnlocked := true }
        (some 10)).2.1 =
      { playsRemaining := 0, linesWritten := 0, isUnlocked := false }
    ∧ (endPlay { highScore := 3, totalPlays := 7 }
        { playsRemaining := 1, linesWritten := 4, isUnlocked := true }
        (some 10)).2.2 = [GameEvent.locked, GameEvent.playEnded] :=
  (c2_endPlay { highScore := 3, totalPlays := 7 }
      { playsRemaining := 1, linesWritten := 4, isUnlocked := true }
      (some 10)).2.1 (by decide)

-- ========================================
-- C3: updateGlobalProgress
-- ========================================

/-- C3: While the global state is locked, each accepted delta adds its net
change to the accumulated progress counter, and on the first delta for
which the accumulated progress reaches or exceeds `linesToUnlock` (and not
before) the engine transitions to unlocked with
`playsRemaining = playsPerUnlock` and the progress counter reset to 0,
emitting exactly one `Unlocked` event; while the global state is unlocked,
incoming deltas leave the state (unlock flag and progress counter)
entirely unchanged. -/
theorem c3_updateGlobalProgress (cfg : ExtensionConfig)
    (s : GlobalPlayState) (d : Int) :
    (s.isUnlocked = true → updateGlobalProgress cfg s d = (s, []))
    ∧ (s.isUnlocked = false →
        cfg.unlock.linesToUnlock ≤ s.linesWritten + d →
        updateGlobalProgress cfg s d =
          ({ playsRemaining := cfg.unlock.playsPerUnlock
             linesWritten := 0
             isUnlocked := true }, [GameEvent.unlocked]))
    ∧ (s.isUnlocked = false →
        s.linesWritten + d < cfg.unlock.linesToUnlock →
        updateGlobalProgress cfg s d =
          ({ s with linesWritten := s.linesWritten + d },
            [GameEvent.progressUpdated]))
    ∧ (((updateGlobalProgress cfg s d).2.count GameEvent.unlocked = 1) ↔
        (s.isUnlocked = false
          ∧ cfg.unlock.linesToUnlock ≤ s.linesWritten + d)) := by
  refine ⟨?_, ?_, ?_, ?_⟩
  · intro hu
    unfold updateGlobalProgress
    simp [hu]
  · intro hu hth
    unfold updateGlobalProgress
    simp [hu, hth]
  · intro hu hth
    have hth2 : ¬ (s.linesWritten + d ≥ cfg.unlock.linesToUnlock) := by
      omega
    unfold updateGlobalProgress
    simp [hu, hth2]
  · unfold updateGlobalProgress
    by_cases hu : s.isUnlocked = true
    · simp [hu]
    · have hu2 : s.isUnlocked = false := by
        cases h : s.isUnlocked with
        | false => rfl
        | true => exact absurd h hu
      by_cases hth : s.linesWritten + d ≥ cfg.unlock.linesToUnlock
      · simp [hu2, hth]
      · simp [hu2, hth]

/-- Witness for C3, the spec's own scenario: at progress 49 of 50, a delta
of 1 crosses the threshold and unlocks with 5 plays and one `Unlocked`
event. -/
theorem c3_updateGlobalProgress_witness :
    updateGlobalProgress DEFAULT_CONFIG
        { playsRemaining := 0, linesWritten := 49, isUnlocked := false } 1 =
      ({ playsRemaining := 5, linesWritten := 0, isUnlocked := true },
        [GameEvent.unlocked]) :=
  (c3_updateGlobalProgress DEFAULT_CONFIG
      { playsRemaining := 0, linesWritten := 49, isUnlocked := false }
      1).2.1 (by decide) (by decide)

-- ========================================
-- C4: debounce timer sharing
-- ========================================

/-- A configuration tracking every file, used to exercise the timer slot. -/
def trackAllConfig : ExtensionConfig :=
  { DEFAULT_CONFIG with trackAllFiles := true }

/-- C4 counterexample: the tracker keeps one `debounceTimer` field shared by
all documents.  With a debounced detection pending for unit `A`, an interim
change signal for the distinct unit `B` cancels and replaces it: afterwards
the only pending detection is for `B`, and `A`'s pending detection is
gone. -/
theorem c4_counterexample :
    (handleDocumentChangeTimer trackAllConfig { pendingDoc := some "file:A" }
        { uri := "file:B", fileName := "/w/b.ts", isUntitled := false
          hasContentChanges := true }).pendingDoc = some "file:B"
    ∧ ("file:A" ≠ "file:B")
    ∧ ¬((handleDocumentChangeTimer trackAllConfig
          { pendingDoc := some "file:A" }
          { uri := "file:B", fileName := "/w/b.ts", isUntitled := false
            hasContentChanges := true }).pendingDoc = some "file:A") := by
  decide

/-- C4 (amended): debounce state is a single timer shared across all tracked
units, not one timer per unit.  An accepted interim change signal (non-empty
content changes, not untitled, tracked by the scope policy) for any unit
cancels and replaces whatever pending debounced detection exists — whichever
unit it belonged to — leaving the signalling unit's detection as the only
pending one.  A signal failing the guards leaves the timer slot untouched. -/
theorem c4_shared_debounce_timer (cfg : ExtensionConfig) (st : TimerState)
    (e : DocChangeEvent) (h1 : e.hasContentChanges = true)
    (h2 : e.isUntitled = false)
    (h3 : shouldTrackDocument cfg e.fileName = true) :
    (handleDocumentChangeTimer cfg st e).pendingDoc = some e.uri
    ∧ ∀ u : String, u ≠ e.uri →
        (handleDocumentChangeTimer cfg st e).pendingDoc ≠ some u := by
  unfold handleDocumentChangeTimer
  simp [h1, h2, h3]
  intro u hu
  exact fun h => hu h.symm

/-- Witness for C4 at concrete inputs: an accepted signal for `file:B`
leaves `file:B` as the only pending detection. -/
theorem c4_shared_debounce_timer_witness :
    (handleDocumentChangeTimer trackAllConfig { pendingDoc := some "file:A" }
        { uri := "file:B", fileName := "/w/b.py", isUntitled := false
          hasContentChanges := true }).pendingDoc = some "file:B" :=
  (c4_shared_debounce_timer trackAllConfig { pendingDoc := some "file:A" }
      { uri := "file:B", fileName := "/w/b.py", isUntitled := false
        hasContentChanges := true }
      (by decide) (by decide) (by decide)).1

-- ========================================
-- C8: the initial global play state
-- ========================================

/-- Modelled from the spec: `StorageManager.getGlobalPlayState` is not under
src/; per the spec's persistence contract (`get(key) -> value | absent`) and
the in-src fallback pattern of `getGameState` and `getConfig`
(`saved || { ...DEFAULT }`), with nothing stored it returns the constant
`DEFAULT_GLOBAL_PLAY_STATE` from `types.ts`.  The active configuration does
not enter the fallback. -/
def initialGlobalPlayState (_cfg : ExtensionConfig) : GlobalPlayState :=
  DEFAULT_GLOBAL_PLAY_STATE

/-- A configuration granting zero initial play credits. -/
def zeroCreditConfig : ExtensionConfig :=
  { DEFAULT_CONFIG with
      unlock := { DEFAULT_CONFIG.unlock with initialPlays := 0 } }

/-- C8 counterexample: under a configuration with `initialPlays = 0` the
claim requires the initial global play state to be locked, but the code's
initial state is the fixed constant `DEFAULT_GLOBAL_PLAY_STATE`, which is
unlocked with 5 plays regardless of the active configuration. -/
theorem c8_counterexample :
    zeroCreditConfig.unlock.initialPlays = 0
    ∧ (initialGlobalPlayState zeroCreditConfig).isUnlocked = true
    ∧ (initialGlobalPlayState zeroCreditConfig).playsRemaining = 5 := by
  decide

/-- C8 (amended): the initial global play state is the compile-time constant
`DEFAULT_GLOBAL_PLAY_STATE` — unlocked, with `playsRemaining` equal to the
default configuration's `initialPlays` (5) and progress 0 — for every
active configuration, including one with `initialPlays = 0`.  Under the
default configuration (whose `initialPlays` is positive) this coincides
with the claimed `Unlocked{playsRemaining = initialPlayCredits}` branch. -/
theorem c8_initial_state (cfg : ExtensionConfig) :
    initialGlobalPlayState cfg =
      { playsRemaining := DEFAULT_CONFIG.unlock.initialPlays
        linesWritten := 0
        isUnlocked := true }
    ∧ DEFAULT_CONFIG.unlock.initialPlays = 5
    ∧ (initialGlobalPlayState DEFAULT_CONFIG).playsRemaining =
        DEFAULT_CONFIG.unlock.initialPlays := by
  exact ⟨rfl, rfl, rfl⟩

-- ========================================
-- C1: the global play state invariant
-- ========================================

/-- C1 counterexample: the state `{playsRemaining = -1, locked}` is
reachable from the initial state by engine operations alone — six
consecutive `endPlay` calls (`endPlay` has no guard and keeps decrementing
past the lock) — so in a reachable state `playsRemaining` is negative,
refuting both the non-negativity and the locked-implies-zero parts of the
claimed invariant. -/
theorem c1_counterexample :
    ReachableU DEFAULT_CONFIG
      { playsRemaining := -1, linesWritten := 0, isUnlocked := false }
    ∧ ¬(0 ≤ (-1 : Int)) := by
  constructor
  · have h0 : ReachableU DEFAULT_CONFIG DEFAULT_GLOBAL_PLAY_STATE :=
      ReachableU.init
    have h1 := ReachableU.step h0 (EngineStep.endPlayStep _)
    rw [show endPlayGlobal DEFAULT_GLOBAL_PLAY_STATE =
      { playsRemaining := 4, linesWritten := 0, isUnlocked := true }
      from by decide] at h1
    have h2 := ReachableU.step h1 (EngineStep.endPlayStep _)
    rw [show endPlayGlobal
        { playsRemaining := 4, linesWritten := 0, isUnlocked := true } =
      { playsRemaining := 3, linesWritten := 0, isUnlocked := true }
      from by decide] at h2
    have h3 := ReachableU.step h2 (EngineStep.endPlayStep _)
    rw [show endPlayGlobal
        { playsRemaining := 3, linesWritten := 0, isUnlocked := true } =
      { playsRemaining := 2, linesWritten := 0, isUnlocked := true }
      from by decide] at h3
    have h4 := ReachableU.step h3 (EngineStep.endPlayStep _)
    rw [show endPlayGlobal
        { playsRemaining := 2, linesWritten := 0, isUnlocked := true } =
      { playsRemaining := 1, linesWritten := 0, isUnlocked := true }
      from by decide] at h4
    have h5 := ReachableU.step h4 (EngineStep.endPlayStep _)
    rw [show endPlayGlobal
        { playsRemaining := 1, linesWritten := 0, isUnlocked := true } =
      { playsRemaining := 0, linesWritten := 0, isUnlocked := false }
      from by decide] at h5
    have h6 := ReachableU.step h5 (EngineStep.endPlayStep _)
    rw [show endPlayGlobal
        { playsRemaining := 0, linesWritten := 0, isUnlocked := false } =
      { playsRemaining := -1, linesWritten := 0, isUnlocked := false }
      from by decide] at h6
    exact h6
  · decide

/-- C1 (amended): in every global play state reachable from the initial
state by engine operations in which each `endPlay` is issued only from a
state with `playsRemaining > 0` (the protocol obtained when every play
session is admitted by a successful `attemptPlay`), and under a
configuration granting a non-negative number of plays per unlock,
`playsRemaining` is non-negative and equals 0 whenever the state is locked.
Without the `endPlay` guard the invariant fails (see the reachable state
with `playsRemaining = -1`). -/
theorem c1_guarded_invariant (cfg : ExtensionConfig)
    (hcfg : 0 ≤ cfg.unlock.playsPerUnlock) (s : GlobalPlayState)
    (h : ReachableG cfg s) :
    0 ≤ s.playsRemaining
    ∧ (s.isUnlocked = false → s.playsRemaining = 0) := by
  induction h with
  | init => exact ⟨by decide, by decide⟩
  | registerGame _ ih => exact ih
  | attemptPlayStep _ ih => exact ih
  | endPlayStep hpos hr ih =>
    rename_i t
    obtain ⟨ih1, ih2⟩ := ih
    unfold endPlayGlobal
    by_cases h0 : t.playsRemaining - 1 = 0
    · rw [if_pos h0]
      exact ⟨by simp [h0], fun _ => by simp [h0]⟩
    · rw [if_neg h0]
      constructor
      · show 0 ≤ t.playsRemaining - 1
        omega
      · intro hN
        have hN2 : t.isUnlocked = false := hN
        have := ih2 hN2
        show t.playsRemaining - 1 = 0
        omega
  | delta d hd hr ih =>
    rename_i t
    obtain ⟨ih1, ih2⟩ := ih
    unfold updateGlobalProgress
    by_cases hu : t.isUnlocked = true
    · rw [if_pos hu]
      exact ⟨ih1, ih2⟩
    · rw [if_neg hu]
      have hu2 : t.isUnlocked = false := by
        cases hx : t.isUnlocked with
        | false => rfl
        | true => exact absurd hx hu
      by_cases hth : t.linesWritten + d ≥ cfg.unlock.linesToUnlock
      · rw [if_pos hth]
        refine ⟨hcfg, ?_⟩
        intro hN
        exact Bool.noConfusion hN
      · rw [if_neg hth]
        exact ⟨ih1, fun _ => ih2 hu2⟩
  | unlockStep hr ih =>
    unfold unlockGameState
    refine ⟨hcfg, ?_⟩
    intro hN
    exact Bool.noConfusion hN
  | lockStep _ ih => exact ⟨by decide, by decide⟩
  | resetStep _ ih => exact ⟨by decide, by decide⟩


/-- Witness for C1 at a concrete reachable state: after a manual lock the
invariant instantiates to `0 ≤ 0`, locked, `playsRemaining = 0`. -/
theorem c1_guarded_invariant_witness :
    0 ≤ lockGameState.playsRemaining
    ∧ (lockGameState.isUnlocked = false →
        lockGameState.playsRemaining = 0) :=
  c1_guarded_invariant DEFAULT_CONFIG (by decide) lockGameState
    (ReachableG.lockStep ReachableG.init)
